import Mathlib

/-!
Verification of the go-crud repository: a shallow embedding of the
condition expression builder (src/repositories/condition_builder.go),
the query-compilation pipeline and the CRUD operation contract
(src/repositories/gorm.repository.go), together with theorems settling
the specification claims about them.
-/

set_option maxHeartbeats 1600000

namespace GoCrud

/-- A bound argument value. In Go the bound arguments have type `any`;
the repository only ever binds integers, strings and slices of such,
so a small closed universe suffices for the embedding. -/
inductive GArg where
  | int (n : Int)
  | str (s : String)
  deriving DecidableEq, Repr

/-- Embedding of Go `strings.ToLower` (ASCII-accurate): lower-case every
character. -/
def stringsToLower (s : String) : String :=
  String.mk (s.data.map Char.toLower)

/-- Embedding of Go `strings.Join(elems, sep)` (argument order flipped
for convenience): concatenate the elements with the separator between
consecutive elements. -/
def stringsJoin (sep : String) : List String → String
  | [] => ""
  | [x] => x
  | x :: y :: rest => x ++ sep ++ stringsJoin sep (y :: rest)

/-- Embedding of `conditionPart` from condition_builder.go.  A Go part
carries `connector`, `fragment`, `args` and an optional `group` pointer;
`compile` reads `fragment`/`args` only when `group == nil`, and the two
cases are produced by disjoint code paths (leaf constructors vs `And`/`Or`),
so the embedding splits them into two constructors. -/
inductive conditionPart where
  | plain (connector : String) (fragment : String) (args : List GArg)
  | grouped (connector : String) (group : List conditionPart)
  deriving Repr

/-- Embedding of `Condition`: the ordered list of parts.  A nil
`*Condition` pointer is modelled as `Option Condition` at use sites. -/
abbrev Condition := List conditionPart

/-- Embedding of `newLeaf` from condition_builder.go. -/
def newLeaf (fragment : String) (args : List GArg) : Condition :=
  [conditionPart.plain "" fragment args]

/-- Embedding of `Eq` (condition_builder.go): `column = ?`. -/
def condEq (column : String) (value : GArg) : Condition :=
  newLeaf (column ++ " = ?") [value]

/-- Embedding of `NotEq`: `column != ?`. -/
def condNotEq (column : String) (value : GArg) : Condition :=
  newLeaf (column ++ " != ?") [value]

/-- Embedding of `Gt`: `column > ?`. -/
def condGt (column : String) (value : GArg) : Condition :=
  newLeaf (column ++ " > ?") [value]

/-- Embedding of `Gte`: `column >= ?`. -/
def condGte (column : String) (value : GArg) : Condition :=
  newLeaf (column ++ " >= ?") [value]

/-- Embedding of `Lt`: `column < ?`. -/
def condLt (column : String) (value : GArg) : Condition :=
  newLeaf (column ++ " < ?") [value]

/-- Embedding of `Lte`: `column <= ?`. -/
def condLte (column : String) (value : GArg) : Condition :=
  newLeaf (column ++ " <= ?") [value]

/-- Embedding of `In`: `column IN (?)` with the whole collection bound
as a single argument. -/
def condIn (column : String) (values : GArg) : Condition :=
  newLeaf (column ++ " IN (?)") [values]

/-- Embedding of `NotIn`: `column NOT IN (?)`. -/
def condNotIn (column : String) (values : GArg) : Condition :=
  newLeaf (column ++ " NOT IN (?)") [values]

/-- Embedding of `Like`: `column LIKE ?` with the caller-supplied pattern. -/
def condLike (column : String) (pattern : String) : Condition :=
  newLeaf (column ++ " LIKE ?") [GArg.str pattern]

/-- Embedding of `ILike`: `LOWER(column) LIKE ?` with the lowercased pattern. -/
def condILike (column : String) (pattern : String) : Condition :=
  newLeaf ("LOWER(" ++ column ++ ") LIKE ?") [GArg.str (stringsToLower pattern)]

/-- Embedding of `Contains`: `LOWER(column) LIKE ?` bound to
`%(stringsToLower value)%`. -/
def condContains (column : String) (value : String) : Condition :=
  newLeaf ("LOWER(" ++ column ++ ") LIKE ?")
    [GArg.str ("%" ++ (stringsToLower value) ++ "%")]

/-- Embedding of `IsNull`: `column IS NULL`, no bound arguments. -/
def condIsNull (column : String) : Condition :=
  [conditionPart.plain "" (column ++ " IS NULL") []]

/-- Embedding of `Between`: `column BETWEEN ? AND ?` with two bound
arguments. -/
def condBetween (column : String) (low high : GArg) : Condition :=
  [conditionPart.plain "" (column ++ " BETWEEN ? AND ?") [low, high]]

/-- Embedding of `Raw`: an arbitrary fragment with explicit bound
arguments. -/
def condRaw (fragment : String) (args : List GArg) : Condition :=
  [conditionPart.plain "" fragment args]

/-- Embedding of `Condition.And`: a nil right-hand operand is a no-op,
otherwise the operand is appended as a nested group with connector `AND`
(the Go method mutates and returns the receiver; functionally this is
list append). -/
def condAnd (c : Condition) (other : Option Condition) : Condition :=
  match other with
  | none => c
  | some o => c ++ [conditionPart.grouped "AND" o]

/-- Embedding of `Condition.Or`: as `condAnd` with connector `OR`. -/
def condOr (c : Condition) (other : Option Condition) : Condition :=
  match other with
  | none => c
  | some o => c ++ [conditionPart.grouped "OR" o]

/-- The loop body of `Condition.compile`: given the index of the first
part, produce the emitted segment list and the concatenated arguments.
A grouped part is compiled recursively; an empty compiled fragment is
skipped entirely (`continue`); a non-empty one is parenthesized exactly
when the group has more than one part; the connector segment is emitted
only for index greater than zero and a non-empty connector. -/
def compileParts : Nat → List conditionPart → List String × List GArg
  | _, [] => ([], [])
  | i, conditionPart.plain connector fragment args :: rest =>
    let restRes := compileParts (i + 1) rest
    let segs := if 0 < i ∧ connector ≠ "" then [connector, fragment] else [fragment]
    (segs ++ restRes.1, args ++ restRes.2)
  | i, conditionPart.grouped connector group :: rest =>
    let inner := compileParts 0 group
    let fragment := stringsJoin " " inner.1
    let restRes := compileParts (i + 1) rest
    if fragment = "" then restRes
    else
      let fragment := if 1 < group.length then "(" ++ fragment ++ ")" else fragment
      let segs := if 0 < i ∧ connector ≠ "" then [connector, fragment] else [fragment]
      (segs ++ restRes.1, inner.2 ++ restRes.2)

/-- Embedding of `Condition.compile`: join the emitted segments with a
single space and return them with the argument list. -/
def compile (c : Condition) : String × List GArg :=
  if c.length = 0 then ("", [])
  else
    let res := compileParts 0 c
    (stringsJoin " " res.1, res.2)

/-- Embedding of `Condition.Build`.  The Go method returns the map
`{"query": q, "args": a}`; the embedding returns the pair `(q, a)`.
A nil receiver or an empty part list yields the empty query. -/
def Build (c : Option Condition) : String × List GArg :=
  match c with
  | none => ("", [])
  | some c =>
    if c.length = 0 then ("", [])
    else compile c

/-- Joining a concatenation of two non-empty segment lists splits at the
separator. -/
theorem stringsJoin_append (sep : String) (xs ys : List String)
    (hx : xs ≠ []) (hy : ys ≠ []) :
    stringsJoin sep (xs ++ ys) = stringsJoin sep xs ++ sep ++ stringsJoin sep ys := by
  induction xs with
  | nil => exact absurd rfl hx
  | cons x xs ih =>
    cases xs with
    | nil =>
      cases ys with
      | nil => exact absurd rfl hy
      | cons y ys => simp [stringsJoin]
    | cons x2 xs2 =>
      have h := ih (by simp)
      simp only [List.cons_append] at h ⊢
      rw [stringsJoin, stringsJoin, h, String.append_assoc, String.append_assoc]
      simp [String.append_assoc]

/-- The compile loop distributes over list concatenation, with the index
of the second block shifted by the length of the first. -/
theorem compileParts_append (xs ys : List conditionPart) (i : Nat) :
    compileParts i (xs ++ ys)
      = ((compileParts i xs).1 ++ (compileParts (i + xs.length) ys).1,
         (compileParts i xs).2 ++ (compileParts (i + xs.length) ys).2) := by
  induction xs generalizing i with
  | nil => simp [compileParts]
  | cons p xs ih =>
    have hidx : i + (p :: xs).length = (i + 1) + xs.length := by
      simp [List.length_cons]
      omega
    rw [hidx]
    cases p with
    | plain connector fragment args =>
      simp [compileParts, ih (i + 1), List.append_assoc]
    | grouped connector group =>
      by_cases hf : stringsJoin " " (compileParts 0 group).1 = "" <;>
        simp [compileParts, ih (i + 1), hf, List.append_assoc]

/-- For a non-empty part list, `compile` is the joined output of the
compile loop started at index 0. -/
theorem compile_of_ne_nil (c : Condition) (h : c ≠ []) :
    compile c = (stringsJoin " " (compileParts 0 c).1, (compileParts 0 c).2) := by
  simp [compile, List.length_eq_zero, h]

/-- A condition whose compiled fragment is non-empty has at least one part. -/
theorem ne_nil_of_compile_ne (c : Condition) (h : (compile c).1 ≠ "") : c ≠ [] := by
  intro hc
  subst hc
  simp [compile] at h

/-- The fragment a nested group contributes: the group's compiled
fragment, parenthesized exactly when the group has more than one part. -/
def wrapGroup (d : Condition) : String :=
  if 1 < d.length then "(" ++ (compile d).1 ++ ")" else (compile d).1

/-- Appending a single grouped part with a non-empty connector to a
condition whose fragment is non-empty emits the connector and the
(possibly parenthesized) group fragment after the existing fragment,
with the group's arguments appended. -/
theorem compile_append_grouped (c d : Condition) (conn : String)
    (hconn : conn ≠ "") (hc : (compile c).1 ≠ "") (hd : (compile d).1 ≠ "") :
    compile (c ++ [conditionPart.grouped conn d])
      = ((compile c).1 ++ " " ++ (conn ++ " " ++ wrapGroup d),
         (compile c).2 ++ (compile d).2) := by
  have hcne : c ≠ [] := ne_nil_of_compile_ne c hc
  have hdne : d ≠ [] := ne_nil_of_compile_ne d hd
  have hclen : 0 < c.length := List.length_pos.mpr hcne
  have hcc := compile_of_ne_nil c hcne
  have hdc := compile_of_ne_nil d hdne
  have hfrag : stringsJoin " " (compileParts 0 d).1 ≠ "" := by
    rw [hcc] at hc
    rw [hdc] at hd
    exact hd
  have hs1 : (compileParts 0 c).1 ≠ [] := by
    intro hnil
    rw [hcc, hnil] at hc
    simp [stringsJoin] at hc
  have hsingle : compileParts c.length [conditionPart.grouped conn d]
      = ([conn, if 1 < d.length then "(" ++ stringsJoin " " (compileParts 0 d).1 ++ ")"
           else stringsJoin " " (compileParts 0 d).1],
         (compileParts 0 d).2) := by
    simp [compileParts, hfrag, hclen, hconn]
  have hne2 : c ++ [conditionPart.grouped conn d] ≠ [] := by simp
  rw [compile_of_ne_nil _ hne2]
  have happ := compileParts_append c [conditionPart.grouped conn d] 0
  rw [Nat.zero_add] at happ
  rw [happ, hsingle]
  rw [stringsJoin_append " " _ _ hs1 (by simp)]
  rw [hcc, hdc]
  simp only [wrapGroup, hdc, stringsJoin]

/-- C1: compilation emits parts depth-first left-to-right; a nested
group is parenthesized exactly when it has more than one part (this is
`wrapGroup`), otherwise inlined bare; arguments concatenate in emission
order; and the two concrete builds from the specification produce the
stated fragments and argument lists. -/
theorem C1_compile_parenthesization :
    (∀ c d : Condition, (compile c).1 ≠ "" → (compile d).1 ≠ "" →
       compile (condAnd c (some d))
         = ((compile c).1 ++ " AND " ++ wrapGroup d,
            (compile c).2 ++ (compile d).2)) ∧
    (∀ c d : Condition, (compile c).1 ≠ "" → (compile d).1 ≠ "" →
       compile (condOr c (some d))
         = ((compile c).1 ++ " OR " ++ wrapGroup d,
            (compile c).2 ++ (compile d).2)) ∧
    Build (some (condAnd (condEq "a" (GArg.int 1)) (some (condEq "b" (GArg.int 2)))))
      = ("a = ? AND b = ?", [GArg.int 1, GArg.int 2]) ∧
    Build (some (condAnd (condEq "a" (GArg.int 1))
        (some (condOr (condEq "b" (GArg.int 2)) (some (condEq "c" (GArg.int 3)))))))
      = ("a = ? AND (b = ? OR c = ?)", [GArg.int 1, GArg.int 2, GArg.int 3]) := by
  refine ⟨?_, ?_, ?_, ?_⟩
  · intro c d hc hd
    have h := compile_append_grouped c d "AND" (by simp) hc hd
    show compile (c ++ [conditionPart.grouped "AND" d]) = _
    rw [h]
    refine Prod.ext ?_ rfl
    show (compile c).1 ++ " " ++ ("AND" ++ " " ++ wrapGroup d)
      = (compile c).1 ++ " AND " ++ wrapGroup d
    apply String.ext
    simp [String.data_append]
  · intro c d hc hd
    have h := compile_append_grouped c d "OR" (by simp) hc hd
    show compile (c ++ [conditionPart.grouped "OR" d]) = _
    rw [h]
    refine Prod.ext ?_ rfl
    show (compile c).1 ++ " " ++ ("OR" ++ " " ++ wrapGroup d)
      = (compile c).1 ++ " OR " ++ wrapGroup d
    apply String.ext
    simp [String.data_append]
  · simp [Build, compile, compileParts, condAnd, condEq, newLeaf, stringsJoin]
  · simp [Build, compile, compileParts, condAnd, condOr, condEq, newLeaf, stringsJoin]

/-- Witness for C1: the general composition law applied at the concrete
build from the specification, with both hypotheses discharged by
evaluation. -/
theorem C1_compile_parenthesization_witness :
    compile (condAnd (condEq "a" (GArg.int 1))
        (some (condOr (condEq "b" (GArg.int 2)) (some (condEq "c" (GArg.int 3))))))
      = ((compile (condEq "a" (GArg.int 1))).1 ++ " AND "
           ++ wrapGroup (condOr (condEq "b" (GArg.int 2)) (some (condEq "c" (GArg.int 3)))),
         (compile (condEq "a" (GArg.int 1))).2
           ++ (compile (condOr (condEq "b" (GArg.int 2)) (some (condEq "c" (GArg.int 3))))).2) :=
  C1_compile_parenthesization.1 _ _
    (by simp [compile, compileParts, condEq, newLeaf, stringsJoin])
    (by simp [compile, compileParts, condOr, condEq, newLeaf, stringsJoin])

/-- C9: composing with a nil right-hand operand through `And` or `Or`
returns the receiver unchanged, and compiling afterwards yields the same
fragment and argument list as before. -/
theorem C9_nil_operand_noop :
    ∀ c : Condition,
      condAnd c none = c ∧ condOr c none = c ∧
      compile (condAnd c none) = compile c ∧
      compile (condOr c none) = compile c ∧
      Build (some (condAnd c none)) = Build (some c) := by
  intro c
  exact ⟨rfl, rfl, rfl, rfl, rfl⟩

/-- Witness for C9 at a concrete condition. -/
theorem C9_nil_operand_noop_witness :
    condAnd (condEq "a" (GArg.int 1)) none = condEq "a" (GArg.int 1) :=
  (C9_nil_operand_noop (condEq "a" (GArg.int 1))).1

/-! Embedding of the configuration types (configs/gorm.config.go).
The second revision of the repository additionally carries the
list-only overrides `ListSelectHandler` and `ListPreloads`, which
`resolveListConfig` in gorm.repository.go reads; the struct fields are
included here as that consumer uses them. -/

/-- Embedding of `GormSelectField`. -/
structure GormSelectField where
  Column : String
  Alias : String

/-- Embedding of `GormPreloadConfig`.  A nil Go function field is
`none`. -/
structure GormPreloadConfig where
  Relation : String
  UnScoped : Bool
  SelectHandler : Option (String → List GormSelectField)

/-- Embedding of `GormFilterType` (a closed set of string constants in
Go; here an inductive over exactly the declared constants). -/
inductive GormFilterType where
  | Equal
  | In
  | NotIn
  | LT
  | GT
  | LTE
  | GTE
  | Regex
  deriving DecidableEq, Repr

/-- Embedding of `GormFilterProperty`. -/
structure GormFilterProperty where
  ColumnName : String
  FilterType : GormFilterType
  deriving DecidableEq, Repr

/-- Embedding of `GormConfig`.  The Go map `Filterable` is modelled as
an association list with unique keys, looked up with `List.lookup`;
nil function-valued fields are `none`; the nil-vs-non-nil distinction
of the `ListPreloads` slice is an `Option`. -/
structure GormConfig where
  Filterable : List (String × GormFilterProperty)
  Searchable : List String
  DefaultSort : String
  SelectHandler : Option (String → List GormSelectField)
  ListSelectHandler : Option (String → List GormSelectField)
  Preloads : List GormPreloadConfig
  ListPreloads : Option (List GormPreloadConfig)
  Joins : String
  UnScoped : Bool
  Group : String

/-- The zero value of `GormConfig`. -/
def emptyGormConfig : GormConfig :=
  { Filterable := []
    Searchable := []
    DefaultSort := ""
    SelectHandler := none
    ListSelectHandler := none
    Preloads := []
    ListPreloads := none
    Joins := ""
    UnScoped := false
    Group := "" }

instance : Inhabited GormConfig := ⟨emptyGormConfig⟩

/-- The search loop of `QueryBuilder` (gorm.repository.go): one
`lower(field) LIKE ?` part per searchable column, each binding
`%(stringsToLower search)%`. -/
def searchLoop (search : String) : List String → List String × List String
  | [] => ([], [])
  | field :: rest =>
    (("lower(" ++ field ++ ") LIKE ?") :: (searchLoop search rest).1,
     ("%" ++ (stringsToLower search) ++ "%") :: (searchLoop search rest).2)

/-- The filter loop of `QueryBuilder`: for each entry of the request
filter map, a key found in `Filterable` contributes one fragment and
one value according to its declared operator kind (the target column
falling back to the key when `ColumnName` is empty); a key not found
contributes nothing.  Filter values are strings here, as produced by
`ToMap` in dto/base_filter_dto.go.  Go map iteration order is
unspecified; the embedding fixes the given list order, which no claim
depends on. -/
def filterLoop (filterable : List (String × GormFilterProperty)) :
    List (String × String) → List String × List String
  | [] => ([], [])
  | (key, value) :: rest =>
    match filterable.lookup key with
    | none => filterLoop filterable rest
    | some prop =>
      let column := if prop.ColumnName = "" then key else prop.ColumnName
      let res := filterLoop filterable rest
      match prop.FilterType with
      | GormFilterType.Equal => ((column ++ " = ?") :: res.1, value :: res.2)
      | GormFilterType.In => ((column ++ " IN (?)") :: res.1, value :: res.2)
      | GormFilterType.NotIn => ((column ++ " NOT IN (?)") :: res.1, value :: res.2)
      | GormFilterType.LT => ((column ++ " < ?") :: res.1, value :: res.2)
      | GormFilterType.GT => ((column ++ " > ?") :: res.1, value :: res.2)
      | GormFilterType.LTE => ((column ++ " <= ?") :: res.1, value :: res.2)
      | GormFilterType.GTE => ((column ++ " >= ?") :: res.1, value :: res.2)
      | GormFilterType.Regex => (("lower(" ++ column ++ ") LIKE ?") :: res.1,
          ("%" ++ (stringsToLower value) ++ "%") :: res.2)

/-- Embedding of `GormRepository.QueryBuilder` (second revision): the
search group (present when a search term is given and `Searchable` is
non-empty) followed by the filter leaves, joined with `AND`; values
concatenate in the same order.  The Go method returns the compiled map
plus an error that can only come from `ToMap`; the embedding takes the
already-produced map and therefore returns just the pair. -/
def QueryBuilder (config : GormConfig) (search : Option String)
    (filterMap : List (String × String)) : String × List String :=
  let searchRes : List String × List String :=
    match search with
    | some s =>
      if 0 < config.Searchable.length then
        (["(" ++ stringsJoin " OR " (searchLoop s config.Searchable).1 ++ ")"],
         (searchLoop s config.Searchable).2)
      else ([], [])
    | none => ([], [])
  let filterRes := filterLoop config.Filterable filterMap
  (stringsJoin " AND " (searchRes.1 ++ filterRes.1), searchRes.2 ++ filterRes.2)

/-- The search loop is a map over the searchable columns. -/
theorem searchLoop_eq_map (s : String) (xs : List String) :
    searchLoop s xs
      = (xs.map (fun f => "lower(" ++ f ++ ") LIKE ?"),
         xs.map (fun _ => "%" ++ (stringsToLower s) ++ "%")) := by
  induction xs with
  | nil => rfl
  | cons x xs ih => simp [searchLoop, ih]

/-- The configuration of the specification example: searchable columns
`name` and `email`, nothing else. -/
def searchExampleConfig : GormConfig :=
  { emptyGormConfig with Searchable := ["name", "email"] }

/-- C4 counterexample: for Searchable `["name","email"]` and search
`"john"`, the compiled group is `(lower(name) LIKE ? OR lower(email)
LIKE ?)` — the column expression is lowered with `lower(`, not
`LOWER(` as the claim states; the bound values are as claimed. -/
theorem C4_counterexample :
    (QueryBuilder searchExampleConfig (some "john") []).1
        = "(lower(name) LIKE ? OR lower(email) LIKE ?)" ∧
    (QueryBuilder searchExampleConfig (some "john") []).1
        ≠ "(LOWER(name) LIKE ? OR LOWER(email) LIKE ?)" ∧
    (QueryBuilder searchExampleConfig (some "john") []).2 = ["%john%", "%john%"] := by
  refine ⟨rfl, by decide, by decide⟩

/-- C4 amended: with a present search term and non-empty Searchable,
the filter compiler builds one parenthesized OR-group with one
case-insensitive contains leaf `lower(col) LIKE ?` per searchable
column (spelled with lowercase `lower`), binding `%(stringsToLower search)%`
for each; for Searchable `["name","email"]` and search `"john"` the
group is exactly `(lower(name) LIKE ? OR lower(email) LIKE ?)` with
values `["%john%","%john%"]`. -/
theorem C4_search_group :
    (∀ (config : GormConfig) (s : String) (fm : List (String × String)),
       config.Searchable ≠ [] →
       QueryBuilder config (some s) fm
         = (stringsJoin " AND "
             (("(" ++ stringsJoin " OR "
                 (config.Searchable.map (fun f => "lower(" ++ f ++ ") LIKE ?")) ++ ")")
               :: (filterLoop config.Filterable fm).1),
            (config.Searchable.map (fun _ => "%" ++ (stringsToLower s) ++ "%"))
              ++ (filterLoop config.Filterable fm).2)) ∧
    QueryBuilder searchExampleConfig (some "john") []
      = ("(lower(name) LIKE ? OR lower(email) LIKE ?)", ["%john%", "%john%"]) := by
  constructor
  · intro config s fm hne
    have hlen : 0 < config.Searchable.length := List.length_pos.mpr hne
    simp [QueryBuilder, hlen, searchLoop_eq_map]
  · decide

/-- Witness for C4: the general group law applied to the example
configuration, the hypothesis discharged by evaluation. -/
theorem C4_search_group_witness :
    QueryBuilder searchExampleConfig (some "john") []
      = (stringsJoin " AND "
          (("(" ++ stringsJoin " OR "
              (searchExampleConfig.Searchable.map (fun f => "lower(" ++ f ++ ") LIKE ?")) ++ ")")
            :: (filterLoop searchExampleConfig.Filterable []).1),
         (searchExampleConfig.Searchable.map (fun _ => "%" ++ (stringsToLower "john") ++ "%"))
           ++ (filterLoop searchExampleConfig.Filterable []).2) :=
  C4_search_group.1 searchExampleConfig "john" [] (by simp [searchExampleConfig])

/-- The single leaf a Filterable entry produces for a filter-map entry:
the target column is `ColumnName`, falling back to the key when empty;
the shape follows the declared operator kind. -/
def leafFor (key value : String) (prop : GormFilterProperty) : String × String :=
  let column := if prop.ColumnName = "" then key else prop.ColumnName
  match prop.FilterType with
  | GormFilterType.Equal => (column ++ " = ?", value)
  | GormFilterType.In => (column ++ " IN (?)", value)
  | GormFilterType.NotIn => (column ++ " NOT IN (?)", value)
  | GormFilterType.LT => (column ++ " < ?", value)
  | GormFilterType.GT => (column ++ " > ?", value)
  | GormFilterType.LTE => (column ++ " <= ?", value)
  | GormFilterType.GTE => (column ++ " >= ?", value)
  | GormFilterType.Regex => ("lower(" ++ column ++ ") LIKE ?", "%" ++ (stringsToLower value) ++ "%")

/-- C8: a filter-map key absent from Filterable contributes no fragment
and no value (both at the loop level and through the whole compiler,
which also never errors on it); each present key contributes exactly
the one leaf of its declared operator kind with the column fallback
(`leafFor`); the number of emitted leaves equals the number of present
keys; and the specification example with only a bogus key compiles to
the empty predicate. -/
theorem C8_unknown_filter_keys :
    (∀ (filterable : List (String × GormFilterProperty)) (key value : String)
       (rest : List (String × String)),
       filterable.lookup key = none →
       filterLoop filterable ((key, value) :: rest) = filterLoop filterable rest) ∧
    (∀ (config : GormConfig) (search : Option String) (key value : String)
       (rest : List (String × String)),
       config.Filterable.lookup key = none →
       QueryBuilder config search ((key, value) :: rest)
         = QueryBuilder config search rest) ∧
    (∀ (filterable : List (String × GormFilterProperty)) (key value : String)
       (rest : List (String × String)) (prop : GormFilterProperty),
       filterable.lookup key = some prop →
       filterLoop filterable ((key, value) :: rest)
         = ((leafFor key value prop).1 :: (filterLoop filterable rest).1,
            (leafFor key value prop).2 :: (filterLoop filterable rest).2)) ∧
    (∀ (filterable : List (String × GormFilterProperty)) (fm : List (String × String)),
       (filterLoop filterable fm).1.length
         = (fm.filter (fun kv => (filterable.lookup kv.1).isSome)).length) ∧
    QueryBuilder emptyGormConfig none [("bogus", "x")] = ("", []) := by
  refine ⟨?_, ?_, ?_, ?_, rfl⟩
  · intro filterable key value rest h
    simp [filterLoop, h]
  · intro config search key value rest h
    simp [QueryBuilder, filterLoop, h]
  · intro filterable key value rest prop h
    cases hft : prop.FilterType <;> simp [filterLoop, leafFor, h, hft]
  · intro filterable fm
    induction fm with
    | nil => rfl
    | cons kv rest ih =>
      obtain ⟨key, value⟩ := kv
      cases h : filterable.lookup key with
      | none => simp [filterLoop, h, ih]
      | some prop =>
        obtain ⟨cn, ft⟩ := prop
        cases ft <;> simp [filterLoop, h, ih]

/-- Witness for C8: the drop law applied to the bogus key of the
specification example against an empty Filterable. -/
theorem C8_unknown_filter_keys_witness :
    filterLoop [] [("bogus", "x")] = filterLoop [] [] :=
  C8_unknown_filter_keys.1 [] "bogus" "x" [] rfl

/-! Embedding of the query-building pipeline of gorm.repository.go
(second revision).  A `*gorm.DB` under construction is modelled as a
record accumulating the clauses the repository methods attach to it. -/

/-- A preload directive attached to the query: the relation name, the
select clause built for it (when its handler is configured), and
whether the per-preload unscoped flag was applied.  In the
no-handler branch the Go code calls `Preload(relation)` only, so the
flag stays unset there. -/
structure PreloadDirective where
  relation : String
  selectClause : Option String
  unscoped : Bool
  deriving DecidableEq, Repr

/-- The query state a `*gorm.DB` accumulates while the repository
builds it. -/
structure DBQuery where
  whereClauses : List (String × List GArg)
  joins : List String
  selectClause : Option String
  preloadDirectives : List PreloadDirective
  unscopedFlag : Bool
  orderClauses : List String
  offsetVal : Option Int
  limitVal : Option Int
  deriving DecidableEq, Repr

/-- The fresh query `r.DB.WithContext(ctx).Model(new(T))` starts from. -/
def emptyDBQuery : DBQuery :=
  { whereClauses := []
    joins := []
    selectClause := none
    preloadDirectives := []
    unscopedFlag := false
    orderClauses := []
    offsetVal := none
    limitVal := none }

/-- The `conditions any` argument of the repository methods: a
`*Condition` (possibly nil), an already-compiled `{query, args}` map,
or anything else (including nil), which is ignored. -/
inductive RepoConditions where
  | cond (c : Option Condition)
  | queryMap (query : String) (args : List GArg)
  | other
  deriving Repr

/-- Embedding of `GormRepository.BuildQueryConditions` (second
revision): resolve the active config (the caller's, else the
repository's), attach the configured join clause, convert a
`*Condition` through `Build`, and attach the compiled predicate as a
WHERE clause when its query string is non-empty. -/
def BuildQueryConditions (repoConfig : GormConfig) (conditions : RepoConditions)
    (gormConfig : Option GormConfig) : DBQuery :=
  let config := gormConfig.getD repoConfig
  let q := emptyDBQuery
  let q := if config.Joins ≠ "" then { q with joins := q.joins ++ [config.Joins] } else q
  let conditions2 := match conditions with
    | RepoConditions.cond c => RepoConditions.queryMap (Build c).1 (Build c).2
    | x => x
  match conditions2 with
  | RepoConditions.queryMap query args =>
    if query ≠ "" then { q with whereClauses := q.whereClauses ++ [(query, args)] } else q
  | _ => q

/-- The select clause a handler output is rendered to:
`Column AS Alias` with the alias falling back to the column, joined by
commas. -/
def renderSelects (fields : List GormSelectField) : String :=
  stringsJoin ", " (fields.map (fun f =>
    f.Column ++ " AS " ++ (if f.Alias = "" then f.Column else f.Alias)))

/-- Embedding of `GormRepository.BuildQueryConfig` (second revision):
conditions first, then the locale-dependent select clause when a
handler is configured, then one preload directive per configured
preload (with its own select clause and unscoped flag only when its
handler is present), then the unscoped flag. -/
def BuildQueryConfig (repoConfig : GormConfig) (conditions : RepoConditions)
    (gormConfig : Option GormConfig) (lang : String) : DBQuery :=
  let config := gormConfig.getD repoConfig
  let q := BuildQueryConditions repoConfig conditions (some config)
  let q := match config.SelectHandler with
    | some handler => { q with selectClause := some (renderSelects (handler lang)) }
    | none => q
  let q := { q with preloadDirectives := q.preloadDirectives ++
      config.Preloads.map (fun p =>
        match p.SelectHandler with
        | some handler =>
          { relation := p.Relation
            selectClause := some (renderSelects (handler lang))
            unscoped := p.UnScoped }
        | none => { relation := p.Relation, selectClause := none, unscoped := false }) }
  if config.UnScoped then { q with unscopedFlag := true } else q

/-- Embedding of `GormRepository.BuildBaseQuery` (second revision): the
configured query plus one ORDER BY clause; the sort key is the
requested one, else the configured default sort when non-empty, else
`created_at`; the direction is the lowercased requested one, else
`desc`. -/
def BuildBaseQuery (repoConfig : GormConfig) (conditions : RepoConditions)
    (sortKey sortDir : Option String) (gormConfig : Option GormConfig)
    (lang : String) : DBQuery :=
  let q := BuildQueryConfig repoConfig conditions gormConfig lang
  let config := gormConfig.getD repoConfig
  let sk := match sortKey with
    | some k => k
    | none => if config.DefaultSort ≠ "" then config.DefaultSort else "created_at"
  let sd := match sortDir with
    | some d => stringsToLower d
    | none => "desc"
  { q with orderClauses := q.orderClauses ++ [sk ++ " " ++ sd] }

/-- Two's-complement wrap-around of Go 64-bit integer arithmetic. -/
def int64wrap (n : Int) : Int :=
  (n + 2 ^ 63) % 2 ^ 64 - 2 ^ 63

/-- Embedding of `Paginate` (gorm.repository.go): non-positive page
becomes 1, non-positive size becomes 10, and the query receives offset
`(page - 1) * size` (Go 64-bit arithmetic) and limit `size`. -/
def Paginate (page size : Int) (db : DBQuery) : DBQuery :=
  let page := if page ≤ 0 then 1 else page
  let size := if size ≤ 0 then 10 else size
  let offset := int64wrap ((page - 1) * size)
  { db with offsetVal := some offset, limitVal := some size }

/-- `BuildQueryConditions` attaches no ORDER BY clause. -/
theorem BuildQueryConditions_orderClauses (rc : GormConfig) (conds : RepoConditions)
    (gc : Option GormConfig) :
    (BuildQueryConditions rc conds gc).orderClauses = [] := by
  unfold BuildQueryConditions
  cases conds <;> dsimp only <;> (repeat' split) <;> simp [emptyDBQuery]

/-- `BuildQueryConfig` attaches no ORDER BY clause either. -/
theorem BuildQueryConfig_orderClauses (rc : GormConfig) (conds : RepoConditions)
    (gc : Option GormConfig) (lang : String) :
    (BuildQueryConfig rc conds gc lang).orderClauses = [] := by
  unfold BuildQueryConfig
  have h := BuildQueryConditions_orderClauses rc conds (some (gc.getD rc))
  cases hsel : (gc.getD rc).SelectHandler <;>
    cases hun : (gc.getD rc).UnScoped <;>
      simp [hsel, hun, h]

/-- The configuration of the specification sort example: default sort
`created_at`, nothing else. -/
def sortExampleConfig : GormConfig :=
  { emptyGormConfig with DefaultSort := "created_at" }

/-- C5 counterexample: with no requested sort key/direction and default
sort `created_at`, the emitted order clause is `created_at desc`
(lowercase `desc`), not `created_at DESC` as claimed; and an
unrecognized requested direction is lowercased and used as-is
(`created_at sideways`) instead of falling back to descending. -/
theorem C5_counterexample :
    (BuildBaseQuery sortExampleConfig RepoConditions.other none none none "en").orderClauses
        = ["created_at desc"] ∧
    (BuildBaseQuery sortExampleConfig RepoConditions.other none none none "en").orderClauses
        ≠ ["created_at DESC"] ∧
    (BuildBaseQuery sortExampleConfig RepoConditions.other none (some "SIDEWAYS") none "en").orderClauses
        = ["created_at sideways"] ∧
    (BuildBaseQuery sortExampleConfig RepoConditions.other none (some "SIDEWAYS") none "en").orderClauses
        ≠ ["created_at desc"] := by
  refine ⟨by decide, by decide, by decide, by decide⟩

/-- C5 amended: the sort key is the requested one when present, else
the configured default sort when non-empty, else `created_at`; the
direction is the lowercased requested one when present (used as-is
even when unrecognized) and falls back to `desc` only when absent; in
particular no sort key/dir with default sort `created_at` yields the
order clause `created_at desc`. -/
theorem C5_sort_resolution :
    (∀ (rc : GormConfig) (conds : RepoConditions) (gc : Option GormConfig)
       (sk sd : Option String) (lang : String),
       (BuildBaseQuery rc conds sk sd gc lang).orderClauses
         = [(match sk with
             | some k => k
             | none =>
               if (gc.getD rc).DefaultSort ≠ "" then (gc.getD rc).DefaultSort
               else "created_at")
            ++ " " ++
            (match sd with
             | some d => stringsToLower d
             | none => "desc")]) ∧
    (BuildBaseQuery sortExampleConfig RepoConditions.other none none none "en").orderClauses
      = ["created_at desc"] := by
  constructor
  · intro rc conds gc sk sd lang
    unfold BuildBaseQuery
    have h := BuildQueryConfig_orderClauses rc conds gc lang
    cases sk <;> cases sd <;> simp [h]
  · decide

/-- C7: pagination normalization maps non-positive page to 1 and
non-positive size to 10 and sets offset `(page-1)*size` and limit
`size` (first in Go machine arithmetic, then exactly for inputs within
a practical range), and the concrete request page 0, per-page -5
normalizes to offset 0 and limit 10, i.e. page 1 with per-page 10. -/
theorem C7_paginate_normalization :
    (∀ (page size : Int) (db : DBQuery),
       Paginate page size db
         = { db with
             offsetVal := some (int64wrap
               (((if page ≤ 0 then 1 else page) - 1) * (if size ≤ 0 then 10 else size)))
             limitVal := some (if size ≤ 0 then 10 else size) }) ∧
    (∀ (page size : Int) (db : DBQuery),
       0 < page → page ≤ 2 ^ 31 → 0 < size → size ≤ 2 ^ 31 →
       Paginate page size db
         = { db with offsetVal := some ((page - 1) * size), limitVal := some size }) ∧
    (∀ db : DBQuery,
       Paginate 0 (-5) db = { db with offsetVal := some 0, limitVal := some 10 }) := by
  refine ⟨fun page size db => rfl, ?_, ?_⟩
  · intro page size db hp hpb hs hsb
    have h1 : ¬ page ≤ 0 := by omega
    have h2 : ¬ size ≤ 0 := by omega
    have hnn : 0 ≤ (page - 1) * size := mul_nonneg (by omega) (by omega)
    have hub : (page - 1) * size < 2 ^ 63 := by nlinarith
    have hwrap : int64wrap ((page - 1) * size) = (page - 1) * size := by
      unfold int64wrap
      rw [Int.emod_eq_of_lt (by omega) (by omega)]
      omega
    simp [Paginate, h1, h2, hwrap]
  · intro db
    have h0 : int64wrap 0 = 0 := by decide
    simp [Paginate, h0]

/-- Witness for C7: the exact-offset law applied at page 3, per-page 7. -/
theorem C7_paginate_normalization_witness :
    Paginate 3 7 emptyDBQuery
      = { emptyDBQuery with offsetVal := some ((3 - 1) * 7), limitVal := some 7 } :=
  C7_paginate_normalization.2.1 3 7 emptyDBQuery (by decide) (by decide) (by decide)
    (by decide)

/-! For the immutability claim the pointer structure of the Go code
matters: `resolveListConfig` dereferences the repository's (or the
caller's) `*GormConfig`, copies the struct by value into a local,
mutates the local and returns its address.  A small heap of config
cells makes the copy explicit. -/

/-- A heap of `GormConfig` cells; pointers are indices. -/
abbrev ConfigHeap := List GormConfig

/-- Dereference a config pointer (a dangling pointer reads the zero
value; theorems restrict to valid pointers). -/
def heapRead (h : ConfigHeap) (p : Nat) : GormConfig :=
  h.getD p emptyGormConfig

/-- The override portion of `GormRepository.resolveListConfig`: on the
local copy, a configured `ListSelectHandler` replaces `SelectHandler`
and a non-nil `ListPreloads` replaces `Preloads`. -/
def applyListOverrides (cfg : GormConfig) : GormConfig :=
  let cfg := match cfg.ListSelectHandler with
    | some f => { cfg with SelectHandler := some f }
    | none => cfg
  match cfg.ListPreloads with
  | some ps => { cfg with Preloads := ps }
  | none => cfg

/-- Heap-level embedding of `GormRepository.resolveListConfig`:
`cfg = *config` (or `*r.Config` when the caller passed nil) copies the
pointed-to struct into a fresh local; the list overrides mutate that
local; `return &cfg` escapes the local to a fresh cell.  The source
cell is only read. -/
def resolveListConfigH (h : ConfigHeap) (repoPtr : Nat) (configPtr : Option Nat) :
    ConfigHeap × Nat :=
  let cfg := match configPtr with
    | none => heapRead h repoPtr
    | some p => heapRead h p
  (h ++ [applyListOverrides cfg], h.length)

/-- Heap-level embedding of the list pipeline of `FindAll` and
`FindAllWithPaging`: resolve the list config, then build the base
query against the resolved config (never nil, so `BuildBaseQuery`
receives it as the caller config). -/
def FindAllQueryH (h : ConfigHeap) (repoPtr : Nat) (configPtr : Option Nat)
    (conds : RepoConditions) (sk sd : Option String) (lang : String) :
    ConfigHeap × DBQuery :=
  let r := resolveListConfigH h repoPtr configPtr
  (r.1, BuildBaseQuery (heapRead h repoPtr) conds sk sd (some (heapRead r.1 r.2)) lang)

/-- C10: the repository's stored FilterSpec is never mutated — every
cell existing before a `resolveListConfig` or a full listing-query
build reads the same afterwards; the freshly returned cell is exactly
the source config with the list-only overrides applied; and those
overrides mean: the list select handler replaces the base one when
configured, the list preloads replace the base ones when configured,
and every other rule carries over unchanged. -/
theorem C10_filterspec_immutable :
    (∀ (h : ConfigHeap) (repoPtr : Nat) (configPtr : Option Nat) (p : Nat),
       p < h.length →
       heapRead (resolveListConfigH h repoPtr configPtr).1 p = heapRead h p) ∧
    (∀ (h : ConfigHeap) (repoPtr : Nat) (configPtr : Option Nat) (conds : RepoConditions)
       (sk sd : Option String) (lang : String) (p : Nat),
       p < h.length →
       heapRead (FindAllQueryH h repoPtr configPtr conds sk sd lang).1 p = heapRead h p) ∧
    (∀ (h : ConfigHeap) (repoPtr p : Nat),
       heapRead (resolveListConfigH h repoPtr (some p)).1
           (resolveListConfigH h repoPtr (some p)).2
         = applyListOverrides (heapRead h p) ∧
       heapRead (resolveListConfigH h repoPtr none).1
           (resolveListConfigH h repoPtr none).2
         = applyListOverrides (heapRead h repoPtr)) ∧
    (∀ cfg : GormConfig,
       (applyListOverrides cfg).SelectHandler
         = (match cfg.ListSelectHandler with
            | some f => some f
            | none => cfg.SelectHandler) ∧
       (applyListOverrides cfg).Preloads = cfg.ListPreloads.getD cfg.Preloads ∧
       (applyListOverrides cfg).Filterable = cfg.Filterable ∧
       (applyListOverrides cfg).Searchable = cfg.Searchable ∧
       (applyListOverrides cfg).DefaultSort = cfg.DefaultSort ∧
       (applyListOverrides cfg).Joins = cfg.Joins ∧
       (applyListOverrides cfg).UnScoped = cfg.UnScoped ∧
       (applyListOverrides cfg).Group = cfg.Group) := by
  have hpres : ∀ (h : ConfigHeap) (repoPtr : Nat) (configPtr : Option Nat) (p : Nat),
      p < h.length →
      heapRead (resolveListConfigH h repoPtr configPtr).1 p = heapRead h p := by
    intro h repoPtr configPtr p hp
    show (h ++ _).getD p emptyGormConfig = h.getD p emptyGormConfig
    rw [List.getD_append _ _ _ _ hp]
  have hcell : ∀ (h : ConfigHeap) (cfg : GormConfig),
      heapRead (h ++ [cfg]) h.length = cfg := by
    intro h cfg
    show (h ++ [cfg]).getD h.length emptyGormConfig = cfg
    rw [List.getD_append_right _ _ _ _ (Nat.le_refl _)]
    simp
  refine ⟨hpres, ?_, ?_, ?_⟩
  · intro h repoPtr configPtr conds sk sd lang p hp
    exact hpres h repoPtr configPtr p hp
  · intro h repoPtr p
    exact ⟨hcell h _, hcell h _⟩
  · intro cfg
    cases hsel : cfg.ListSelectHandler <;>
      cases hpre : cfg.ListPreloads <;>
        simp [applyListOverrides, hsel, hpre]

/-- Witness for C10: heap preservation applied at a concrete one-cell
heap. -/
theorem C10_filterspec_immutable_witness :
    heapRead (resolveListConfigH [sortExampleConfig] 0 none).1 0
      = heapRead [sortExampleConfig] 0 :=
  C10_filterspec_immutable.1 [sortExampleConfig] 0 none 0 (by decide)

/-! Embedding of the single-record reads (C6) and of the
identity-returning writes (C3). -/

/-- The errors a backend call surfaces: gorm's record-not-found
sentinel or an opaque backend failure. -/
inductive GormError where
  | recordNotFound
  | backend (msg : String)
  deriving DecidableEq, Repr

/-- The backend `First` primitive over the rows matching the built
query: the first row, or the record-not-found sentinel when none
match. -/
def dbFirst (T : Type) (matching : List T) : Except GormError T :=
  match matching with
  | [] => Except.error GormError.recordNotFound
  | r :: _ => Except.ok r

/-- Embedding of the result handling of `GormRepository.FindOne`
(second revision): the destination starts as the zero value `zero`;
the record-not-found error maps to `(nil, nil)`; any other outcome
returns the (filled or still-zero) destination pointer together with
the error. -/
def FindOne (T : Type) (zero : T) (first : Except GormError T) :
    Option T × Option GormError :=
  match first with
  | Except.error GormError.recordNotFound => (none, none)
  | Except.error e => (some zero, some e)
  | Except.ok r => (some r, none)

/-- Embedding of `GormRepository.FindOneByPK` (second revision): the
query is built from the predicate `Eq("id", id)` and the result
handling is identical to `FindOne`; the embedding returns the compiled
predicate together with the mapped result. -/
def FindOneByPK (T : Type) (zero : T) (id : GArg) (first : Except GormError T) :
    (String × List GArg) × (Option T × Option GormError) :=
  (Build (some (condEq "id" id)), FindOne T zero first)

/-- C6: when no row matches, both single-record reads return the
explicit empty value and no error; a found row comes back with no
error; a backend failure comes back as an error — so the no-match case
is distinguishable from failure.  `FindOneByPK` also queries by the
compiled predicate `id = ?`. -/
theorem C6_not_found_is_empty_value :
    (∀ (T : Type) (zero : T),
       FindOne T zero (dbFirst T []) = (none, none)) ∧
    (∀ (T : Type) (zero : T) (r : T) (rest : List T),
       FindOne T zero (dbFirst T (r :: rest)) = (some r, none)) ∧
    (∀ (T : Type) (zero : T) (msg : String),
       FindOne T zero (Except.error (GormError.backend msg))
         = (some zero, some (GormError.backend msg))) ∧
    (∀ (T : Type) (zero : T) (id : GArg),
       FindOneByPK T zero id (dbFirst T [])
         = (("id = ?", [id]), (none, none))) := by
  refine ⟨fun T zero => rfl, fun T zero r rest => rfl, fun T zero msg => rfl, ?_⟩
  intro T zero id
  show (Build (some (condEq "id" id)), FindOne T zero (dbFirst T []))
    = (("id = ?", [id]), (none, none))
  simp [Build, compile, compileParts, condEq, newLeaf, stringsJoin, FindOne, dbFirst]

/-- Witness for C6 at the String entity type. -/
theorem C6_not_found_is_empty_value_witness :
    FindOne String "" (dbFirst String []) = (none, none) :=
  C6_not_found_is_empty_value.1 String ""

/-- The reflect kinds an identifier field can have (Go `reflect.Kind`,
restricted to the kinds relevant to the switch in the source plus a
catch-all). -/
inductive ReflectKind where
  | String
  | Int
  | Int8
  | Int16
  | Int32
  | Int64
  | Uint
  | Uint8
  | Uint16
  | Uint32
  | Uint64
  | Bool
  | Float64
  | Other
  deriving DecidableEq, Repr

/-- The scalar identity value `Create`/`CreateOrUpdate` return. -/
inductive IdValue where
  | str (s : String)
  | int (n : Int)
  | uint (n : Nat)
  deriving DecidableEq, Repr

/-- What reflection sees of the entity passed to `Create` or
`CreateOrUpdate`: whether a field named `ID` exists, its reflect kind,
and its value under each of the three accessors used. -/
structure EntityModel where
  hasIdField : Bool
  idKind : ReflectKind
  idStr : String
  idInt : Int
  idUint : Nat
  deriving DecidableEq, Repr

/-- A backend round trip issued by the identity-returning writes. -/
inductive BackendCall where
  | insert
  | insertOnConflict (conflictColumns : List String) (updateAll : Bool)
      (updateColumns : List String)
  deriving DecidableEq, Repr

/-- The identifier-resolution tail duplicated verbatim in `Create` and
`CreateOrUpdate` (second revision): require a field named `ID`, then
switch on its reflect kind, accepting only string, int, int64, uint
and uint64. -/
def resolveId (e : EntityModel) : Except String IdValue :=
  if e.hasIdField = false then Except.error "ID field not found on entity"
  else
    match e.idKind with
    | ReflectKind.String => Except.ok (IdValue.str e.idStr)
    | ReflectKind.Int => Except.ok (IdValue.int e.idInt)
    | ReflectKind.Int64 => Except.ok (IdValue.int e.idInt)
    | ReflectKind.Uint => Except.ok (IdValue.uint e.idUint)
    | ReflectKind.Uint64 => Except.ok (IdValue.uint e.idUint)
    | _ => Except.error "unsupported ID type"

/-- Embedding of `GormRepository.Create` (second revision): the type
assertion guards first and issues nothing; the backend insert is
issued next (`insertError` is its outcome); only after a successful
insert is the identifier resolved by reflection.  The output records
the backend calls issued, in order, with the result. -/
def Create (validType : Bool) (insertError : Option String) (e : EntityModel) :
    List BackendCall × Except String IdValue :=
  if validType = false then ([], Except.error "invalid type passed to Create")
  else
    match insertError with
    | some msg => ([BackendCall.insert], Except.error msg)
    | none => ([BackendCall.insert], resolveId e)

/-- Embedding of `GormRepository.CreateOrUpdate` (second revision):
the type assertion guards first; the ON CONFLICT clause takes the
conflict columns when non-empty, and either the explicit update
columns or update-all when none are given; one
insert-with-conflict-resolution is issued; only then is the
identifier resolved by reflection. -/
def CreateOrUpdate (validType : Bool) (conflictColumns updateColumns : List String)
    (insertError : Option String) (e : EntityModel) :
    List BackendCall × Except String IdValue :=
  if validType = false then ([], Except.error "invalid type passed to CreateOrUpdate")
  else
    let call := BackendCall.insertOnConflict
      (if 0 < conflictColumns.length then conflictColumns else [])
      updateColumns.isEmpty
      (if 0 < updateColumns.length then updateColumns else [])
    match insertError with
    | some msg => ([call], Except.error msg)
    | none => ([call], resolveId e)

/-- An entity whose reflection has no `ID` field. -/
def noIdEntity : EntityModel :=
  { hasIdField := false, idKind := ReflectKind.String, idStr := "", idInt := 0, idUint := 0 }

/-- An entity whose `ID` field is an `int32` — a signed integer kind
the switch does not accept. -/
def int32Entity : EntityModel :=
  { hasIdField := true, idKind := ReflectKind.Int32, idStr := "", idInt := 7, idUint := 0 }

/-- C3 counterexample: for an entity with an unresolvable `ID` field
(and likewise for an `int32` identifier, although `int32` is a signed
integer) `Create` and `CreateOrUpdate` do fail with the configuration
error — but the backend insert has already been issued: the recorded
call list is non-empty, refuting "before any backend call is issued
(no insert is attempted)". -/
theorem C3_counterexample :
    (Create true none noIdEntity).2 = Except.error "ID field not found on entity" ∧
    (Create true none noIdEntity).1 = [BackendCall.insert] ∧
    (Create true none int32Entity).2 = Except.error "unsupported ID type" ∧
    (Create true none int32Entity).1 = [BackendCall.insert] ∧
    (CreateOrUpdate true ["id"] [] none noIdEntity).2
      = Except.error "ID field not found on entity" ∧
    (CreateOrUpdate true ["id"] [] none noIdEntity).1
      = [BackendCall.insertOnConflict ["id"] true []] := by
  refine ⟨rfl, rfl, rfl, rfl, rfl, rfl⟩

/-- The reflect kinds the identity switch accepts. -/
def supportedIdKind (k : ReflectKind) : Bool :=
  match k with
  | ReflectKind.String => true
  | ReflectKind.Int => true
  | ReflectKind.Int64 => true
  | ReflectKind.Uint => true
  | ReflectKind.Uint64 => true
  | _ => false

/-- C3 amended: for `Create` and `CreateOrUpdate` on a well-typed
entity whose `ID` field is unresolvable or whose reflect kind is
outside string/int/int64/uint/uint64, the operation fails with the
corresponding configuration error, but only after the one backend
insert has been issued (identifier resolution happens after the
create call, not before it). -/
theorem C3_identity_config_error :
    (∀ (e : EntityModel),
       e.hasIdField = false ∨ supportedIdKind e.idKind = false →
       (Create true none e).1 = [BackendCall.insert] ∧
       ((Create true none e).2 = Except.error "ID field not found on entity" ∨
        (Create true none e).2 = Except.error "unsupported ID type")) ∧
    (∀ (cc uc : List String) (e : EntityModel),
       e.hasIdField = false ∨ supportedIdKind e.idKind = false →
       (CreateOrUpdate true cc uc none e).1
         = [BackendCall.insertOnConflict (if 0 < cc.length then cc else [])
             uc.isEmpty (if 0 < uc.length then uc else [])] ∧
       ((CreateOrUpdate true cc uc none e).2 = Except.error "ID field not found on entity" ∨
        (CreateOrUpdate true cc uc none e).2 = Except.error "unsupported ID type")) := by
  have hres : ∀ e : EntityModel,
      e.hasIdField = false ∨ supportedIdKind e.idKind = false →
      (resolveId e = Except.error "ID field not found on entity" ∨
       resolveId e = Except.error "unsupported ID type") := by
    intro e h
    obtain ⟨hid, kind, s, i, u⟩ := e
    cases hid <;> cases kind <;> simp_all [resolveId, supportedIdKind]
  constructor
  · intro e h
    refine ⟨rfl, ?_⟩
    have := hres e h
    cases this with
    | inl h1 => exact Or.inl (by simp [Create, h1])
    | inr h1 => exact Or.inr (by simp [Create, h1])
  · intro cc uc e h
    refine ⟨rfl, ?_⟩
    have := hres e h
    cases this with
    | inl h1 => exact Or.inl (by simp [CreateOrUpdate, h1])
    | inr h1 => exact Or.inr (by simp [CreateOrUpdate, h1])

/-- Witness for C3: the amended law applied to the no-ID entity. -/
theorem C3_identity_config_error_witness :
    (Create true none noIdEntity).1 = [BackendCall.insert] ∧
    ((Create true none noIdEntity).2 = Except.error "ID field not found on entity" ∨
     (Create true none noIdEntity).2 = Except.error "unsupported ID type") :=
  C3_identity_config_error.1 noIdEntity (Or.inl rfl)

end GoCrud
